import Mathlib

/-!
Verification of the scrape-and-serve pipeline of `src/app.py` (the
`scrape_stock_data` function and the four Flask endpoint handlers),
as a shallow embedding in Lean 4.

Raw HTML handling by BeautifulSoup is abstracted: a fetched response
carries, besides its raw text (used for the substring checks the code
performs on `response.text`), the structural view of the document that
the parser code inspects (grid container, section divs, headings,
countdown paragraphs, item list entries).  Every string comparison,
regex digit extraction, dictionary aggregation, retry loop and cache
interaction is translated directly from the source.
-/

namespace Stocks

/-- Substring test on character lists: `matchHere n h` holds when `n` is an
initial segment of `h`.  Used to model Python's `in` operator on strings. -/
def matchHere : List Char → List Char → Bool
  | [], _ => true
  | _ :: _, [] => false
  | c :: cs, d :: ds => c == d && matchHere cs ds

/-- Search `needle` anywhere in `hay` (model of Python `needle in hay`). -/
def subSearch (needle : List Char) : List Char → Bool
  | [] => matchHere needle []
  | d :: ds => matchHere needle (d :: ds) || subSearch needle ds

/-- Python `needle in hay` on strings. -/
def strContains (hay needle : String) : Bool :=
  subSearch needle.toList hay.toList

/-- Python `s.strip()`: leading and trailing whitespace removed. -/
def pyStrip (s : String) : String :=
  ⟨((s.toList.dropWhile Char.isWhitespace).reverse.dropWhile Char.isWhitespace).reverse⟩

/-- Python `s.lower()` (ASCII case folding, which covers every literal the
code compares against). -/
def pyLower (s : String) : String :=
  ⟨s.toList.map Char.toLower⟩

/-- Python `s.upper()` (ASCII case folding). -/
def pyUpper (s : String) : String :=
  ⟨s.toList.map Char.toUpper⟩

/-- Model of `re.search(r'\d+', s)` followed by `int(...)`: the first maximal
run of decimal digits in `s`, or `none` when `s` has no digit. -/
def firstDigitRun (s : String) : Option Nat :=
  let cs := s.toList.dropWhile (fun c => !c.isDigit)
  let ds := cs.takeWhile Char.isDigit
  if ds.isEmpty then none
  else some (ds.foldl (fun a c => a * 10 + (c.toNat - 48)) 0)

/-- A stock line item: `{'name': ..., 'quantity': ...}` (app.py line 171). -/
structure LineItem where
  name : String
  quantity : Nat
deriving Repr, DecidableEq

/-- One stock section: `{'items': ..., 'updates_in': ...}` (app.py lines 88-92). -/
structure StockSection where
  items : List LineItem
  updates_in : String
deriving Repr, DecidableEq

/-- The snapshot dict `stock_data` with its three fixed keys
(app.py lines 88-92). -/
structure StockSnapshot where
  gear_stock : StockSection
  egg_stock : StockSection
  seeds_stock : StockSection
deriving Repr, DecidableEq

/-- The default section `{'items': [], 'updates_in': 'Unknown'}`. -/
def default_section : StockSection :=
  { items := [], updates_in := "Unknown" }

/-- The initial `stock_data` value built at app.py lines 88-92: every
category defaults to the empty section. -/
def initial_stock_data : StockSnapshot :=
  { gear_stock := default_section
    egg_stock := default_section
    seeds_stock := default_section }

/-- Structural view of one `<li>` entry matching the `bg-gray-\d+` class
pattern (app.py line 144).  `firstContent` is `name_span.contents[0]` when
that expression yields a text node (`none` both when the span is missing its
first child and when the first child is not text, in which case the code's
`.strip()` raises and the inner `except` skips the entry);
`quantitySpan` is the text of the nested `span` with a `text-gray` class,
when present. -/
structure NameSpan where
  firstContent : Option String
  quantitySpan : Option String
deriving Repr, DecidableEq

/-- One `<li>` item entry; `nameSpan` is `item.find('span')`. -/
structure ItemEntry where
  nameSpan : Option NameSpan
deriving Repr, DecidableEq

/-- The per-entry extraction of app.py lines 149-174: name from the span's
first content (stripped), quantity via `re.search(r'\d+', ...)` on the
nested gray span's stripped text; any missing piece skips the entry. -/
def parseItem (it : ItemEntry) : Option (String × Nat) :=
  match it.nameSpan with
  | none => none
  | some ns =>
    match ns.firstContent with
    | none => none
    | some content =>
      let name := pyStrip content
      match ns.quantitySpan with
      | none => none
      | some qtext =>
        match firstDigitRun (pyStrip qtext) with
        | none => none
        | some q => some (name, q)

/-- Model of the `item_dict` update at app.py lines 168-171: Python dicts
keep insertion order, and updating an existing key keeps its position, so
the dict is an association list where an existing name has its quantity
summed in place and a new name is appended. -/
def addItem : List LineItem → String → Nat → List LineItem
  | [], name, q => [{ name := name, quantity := q }]
  | it :: rest, name, q =>
    if it.name = name then { name := it.name, quantity := it.quantity + q } :: rest
    else it :: addItem rest name q

/-- One iteration of the item loop: a skipped entry leaves `item_dict`
unchanged, a parsed entry is merged in. -/
def itemStep (acc : List LineItem) (e : ItemEntry) : List LineItem :=
  match parseItem e with
  | none => acc
  | some (n, q) => addItem acc n q

/-- The full per-section aggregation loop (app.py lines 148-175):
`stock_items = list(item_dict.values())` after folding every entry in. -/
def sectionItems (entries : List ItemEntry) : List LineItem :=
  entries.foldl itemStep []

/-- Structural view of the countdown `<p>` with a `text-yellow.*` class
(app.py lines 127-137): `countdownSpan` holds the text of the inner `span`
whose id matches `countdown-(gear|egg|seeds)`, when such a span exists. -/
structure CountdownP where
  countdownSpan : Option String
deriving Repr, DecidableEq

/-- Structural view of one immediate child `<div>` of the stock grid
(a "section", app.py lines 119-184): its `<h2>` text when present, the
countdown paragraph when present, and the entries of the `<ul>` with a
`space-y-\d+` class when present. -/
structure SectionDiv where
  h2 : Option String
  countdownP : Option CountdownP
  itemsUl : Option (List ItemEntry)
deriving Repr, DecidableEq

/-- The countdown extraction of app.py lines 126-137: the trimmed text of
the matching span inside the yellow paragraph, defaulting to `"Unknown"`
when either lookup fails. -/
def sectionCountdown (sec : SectionDiv) : String :=
  match sec.countdownP with
  | none => "Unknown"
  | some p =>
    match p.countdownSpan with
    | none => "Unknown"
    | some s => pyStrip s

/-- The loop body for one section (app.py lines 119-184): skip when the
`<h2>` or the item list is missing, otherwise classify the upper-cased
title by substring (`GEAR`, then `EGG`, then `SEEDS`) and overwrite that
category of `stock_data`; unrecognized titles leave the data unchanged. -/
def processSection (data : StockSnapshot) (sec : SectionDiv) : StockSnapshot :=
  match sec.h2 with
  | none => data
  | some t =>
    let title := pyUpper (pyStrip t)
    let countdown := sectionCountdown sec
    match sec.itemsUl with
    | none => data
    | some entries =>
      let stock_items := sectionItems entries
      if strContains title "GEAR" then
        { data with gear_stock := { items := stock_items, updates_in := countdown } }
      else if strContains title "EGG" then
        { data with egg_stock := { items := stock_items, updates_in := countdown } }
      else if strContains title "SEEDS" then
        { data with seeds_stock := { items := stock_items, updates_in := countdown } }
      else data

/-- The stock grid: its immediate child `<div>` elements
(`stock_grid.find_all('div', recursive=False)`, app.py line 110). -/
structure Grid where
  sections : List SectionDiv
deriving Repr, DecidableEq

/-- One `<div>` of the document, as inspected by the fallback scan at
app.py lines 97-100: the texts of its `<h2>` descendants (matched by
`div.find('h2', text=...)`) and its own immediate-child-div view, used as
the grid when this div is selected. -/
structure FallbackDiv where
  h2Texts : List String
  asGrid : Grid
deriving Repr, DecidableEq

/-- Structural view of the parsed document: the result of
`soup.find('div', class_=re.compile(r'grid.*grid-cols'))` (present or not),
and the list of all `<div>` elements in document order for the fallback
scan. -/
structure Page where
  gridByClass : Option Grid
  fallbackDivs : List FallbackDiv
deriving Repr, DecidableEq

/-- The fallback heading test of app.py line 98:
`re.compile(r'GEAR STOCK|EGG STOCK|SEEDS STOCK', re.I)` searched in the
heading text, i.e. a case-insensitive substring match against the three
literal alternatives. -/
def headingMatches (t : String) : Bool :=
  strContains (pyUpper t) "GEAR STOCK" ||
  strContains (pyUpper t) "EGG STOCK" ||
  strContains (pyUpper t) "SEEDS STOCK"

/-- Grid location (app.py lines 94-100): the class-based lookup first, then
the first document `<div>` containing a matching `<h2>`. -/
def findGrid (p : Page) : Option Grid :=
  match p.gridByClass with
  | some g => some g
  | none =>
    match p.fallbackDivs.find? (fun d => d.h2Texts.any headingMatches) with
    | some d => some d.asGrid
    | none => none

/-- An error body returned as data: `{'error': ..., 'details': ...,
'suggestion': ...}` (the `suggestion` key is present in every error the
code builds, but the type allows its absence to state the spec's shape). -/
structure ErrorBody where
  error : String
  details : String
  suggestion : Option String
deriving Repr, DecidableEq

/-- Outcome of `scrape_stock_data`: either the snapshot dict or an error
dict. -/
inductive ScrapeResult where
  | snapshot (s : StockSnapshot)
  | failure (e : ErrorBody)
deriving Repr, DecidableEq

/-- The `InvalidContentType` error dict (app.py lines 71-75). -/
def invalidContentTypeError (ct : String) : ErrorBody :=
  { error := "Invalid response from server."
    details := "Received non-HTML content (Content-Type: " ++ ct ++ ")."
    suggestion := some "The server may be blocking access or returning unexpected data. Contact the server administrator via Discord (https://discord.gg/kEpjAJQdPH)." }

/-- The `BotChallenge` error dict (app.py lines 82-86). -/
def botChallengeError : ErrorBody :=
  { error := "Blocked by Cloudflare verification."
    details := "The server requires browser verification, which cannot be bypassed with current setup."
    suggestion := some "Try using a proxy or contact the server administrator via Discord (https://discord.gg/kEpjAJQdPH)." }

/-- The `StructureNotFound` error dict for a missing grid (app.py lines
103-107). -/
def structureNotFoundError : ErrorBody :=
  { error := "Stock grid not found on the page."
    details := "The page structure may differ, or data is loaded dynamically."
    suggestion := some "Verify the website content in a browser or contact the server administrator via Discord (https://discord.gg/kEpjAJQdPH)." }

/-- The `StructureNotFound` error dict for a grid with no sections (app.py
lines 113-117). -/
def noSectionsError : ErrorBody :=
  { error := "No stock sections found in grid."
    details := "The page structure may have changed."
    suggestion := some "Verify the website content or contact the server administrator." }

/-- The `EmptyResult` error dict (app.py lines 188-192). -/
def emptyResultError : ErrorBody :=
  { error := "No stock data found."
    details := "The page structure may have changed or data is not available."
    suggestion := some "Verify the website content or contact the server administrator via Discord (https://discord.gg/kEpjAJQdPH)." }

/-- The `TransportFailure` error dict built after the last failed attempt
(app.py lines 206-212); `msg` is `str(e)` for the last exception. -/
def transportFailureError (msg : String) : ErrorBody :=
  { error := "Failed to fetch or parse data after multiple attempts."
    details := msg ++ ". The server may have returned invalid or non-HTML data."
    suggestion := some "Try using a proxy, verify the website content in a browser, or contact the server administrator via Discord (https://discord.gg/kEpjAJQdPH)." }

/-- The parsing phase of one attempt, after the response-level checks
(app.py lines 88-196): locate the grid, require sections, fold every
section into `stock_data`, and escalate an all-empty result. -/
def parsePage (p : Page) : ScrapeResult :=
  match findGrid p with
  | none => .failure structureNotFoundError
  | some g =>
    if g.sections.isEmpty then .failure noSectionsError
    else
      let data := g.sections.foldl processSection initial_stock_data
      if data.gear_stock.items.isEmpty && data.egg_stock.items.isEmpty
          && data.seeds_stock.items.isEmpty then
        .failure emptyResultError
      else .snapshot data

/-- A fetched HTTP response: status code, `Content-Type` header value, raw
body text (checked for challenge markers), and the structural view the
parser sees. -/
structure Response where
  status : Nat
  contentType : String
  body : String
  page : Page
deriving Repr, DecidableEq

/-- Outcome of one `scraper.get` call: either an exception raised during
the request (carrying `str(e)`), or a response. -/
inductive AttemptOutcome where
  | exn (msg : String)
  | resp (r : Response)
deriving Repr, DecidableEq

/-- Models `response.raise_for_status()` of the requests library: raises an
`HTTPError` exactly for 4xx/5xx status codes; the exception message is
abstracted to carry the status. -/
def raiseForStatus (r : Response) : Option String :=
  if 400 ≤ r.status then some s!"{r.status} Error" else none

/-- The response-level validation of one attempt (app.py lines 68-86):
`Content-Type` must contain `text/html` (case-insensitive on the header),
then the body must not contain `'cf-browser-verification'` (checked on the
raw text) nor `'checking your browser'` (checked on the lowered text);
otherwise parsing proceeds. -/
def tryAttempt (r : Response) : ScrapeResult :=
  if !strContains (pyLower r.contentType) "text/html" then
    .failure (invalidContentTypeError r.contentType)
  else if strContains r.body "cf-browser-verification"
      || strContains (pyLower r.body) "checking your browser" then
    .failure botChallengeError
  else parsePage r.page

/-- One full iteration of the `try` block: an exception from the request or
from `raise_for_status` is `Except.error` (caught by the `except` clause);
everything else returns a `ScrapeResult` directly from inside the loop. -/
def attemptStep (o : AttemptOutcome) : Except String ScrapeResult :=
  match o with
  | .exn m => .error m
  | .resp r =>
    match raiseForStatus r with
    | some m => .error m
    | none => .ok (tryAttempt r)

/-- The retry loop of app.py lines 59-212, with `attempts i` the outcome of
the `scraper.get` call on iteration `i`.  `runFrom attempts i k` runs
iterations `i, i+1, ...` with `k` attempts remaining and returns the result
together with the number of `scraper.get` calls performed.  On an exception
with no attempt remaining after this one, the loop returns
`TransportFailure` carrying the exception's message; with attempts
remaining it retries.  The `k = 0` case is never reached from
`scrapeAttempts` (the loop runs `range(max_retries)` with
`max_retries = 3`). -/
def runFrom (attempts : Nat → AttemptOutcome) : Nat → Nat → ScrapeResult × Nat
  | _, 0 => (.failure (transportFailureError ""), 0)
  | i, 1 =>
    match attemptStep (attempts i) with
    | .ok res => (res, 1)
    | .error m => (.failure (transportFailureError m), 1)
  | i, k + 2 =>
    match attemptStep (attempts i) with
    | .ok res => (res, 1)
    | .error _ =>
      let r := runFrom attempts (i + 1) (k + 1)
      (r.1, r.2 + 1)

/-- The whole fetch-validate-parse loop with `max_retries = 3`
(app.py lines 56-212). -/
def scrapeAttempts (attempts : Nat → AttemptOutcome) : ScrapeResult × Nat :=
  runFrom attempts 0 3

/-- The 300-second time bucket of app.py line 28: `int(time.time() // 300)`
with `now` the current Unix time in seconds. -/
def bucket (now : Nat) : Nat :=
  now / 300

/-- The cache key of app.py line 28: `f"stock_data_{int(time.time() // 300)}"`. -/
def cacheKey (now : Nat) : String :=
  "stock_data_" ++ toString (bucket now)

/-- Cache state: the `TTLCache` modelled as an association list from key to
snapshot.  TTL expiry never removes the entry consulted by a same-bucket
read (the entry's age within its own 300-second bucket is below the
300-second TTL), and size eviction only touches older buckets, so neither
is load-bearing for the properties below. -/
abbrev CacheState := List (String × StockSnapshot)

/-- Python `key in cache` / `cache[key]` on the association list. -/
def cacheLookup : CacheState → String → Option StockSnapshot
  | [], _ => none
  | (k', v) :: rest, k => if k' = k then some v else cacheLookup rest k

/-- Python `cache[key] = v`: update in place when the key exists, append
otherwise. -/
def cacheInsert (c : CacheState) (k : String) (v : StockSnapshot) : CacheState :=
  match c with
  | [] => [(k, v)]
  | (k', v') :: rest =>
    if k' = k then (k, v) :: rest else (k', v') :: cacheInsert rest k v

/-- The full `scrape_stock_data` (app.py lines 26-212) as a function of the
current time, the cache contents, and the per-attempt fetch outcomes.
Returns the result, the cache afterwards, and the number of `scraper.get`
calls.  A cache hit returns immediately with no fetch; otherwise the loop
runs, and only a successful snapshot is stored (the `cache[cache_key] =
stock_data` at line 195 sits on the success path right before its
`return`; every error dict is returned without touching the cache). -/
def scrape_stock_data (now : Nat) (cache : CacheState)
    (attempts : Nat → AttemptOutcome) : ScrapeResult × CacheState × Nat :=
  let key := cacheKey now
  match cacheLookup cache key with
  | some snap => (.snapshot snap, cache, 0)
  | none =>
    let r := scrapeAttempts attempts
    match r.1 with
    | .snapshot s => (.snapshot s, cacheInsert cache key s, r.2)
    | .failure e => (.failure e, cache, r.2)

/-- A JSON response body produced by an endpoint handler: a full snapshot,
a single section, or an error object. -/
inductive Body where
  | snap (s : StockSnapshot)
  | sec (s : StockSection)
  | err (e : ErrorBody)
deriving Repr, DecidableEq

/-- The `/stocks/all` handler (app.py lines 215-221): `jsonify(data)`
unchanged, so an error dict is returned as the error object. -/
def allStocksGet (res : ScrapeResult) : Body :=
  match res with
  | .snapshot s => .snap s
  | .failure e => .err e

/-- The `/stocks/gear` handler (app.py lines 223-229):
`data.get('gear_stock', {'items': [], 'updates_in': 'Unknown'})`.  A
snapshot dict has the key; an error dict does not, so `.get` yields the
default section. -/
def gearStockGet (res : ScrapeResult) : Body :=
  match res with
  | .snapshot s => .sec s.gear_stock
  | .failure _ => .sec default_section

/-- The `/stocks/egg` handler (app.py lines 231-237). -/
def eggStockGet (res : ScrapeResult) : Body :=
  match res with
  | .snapshot s => .sec s.egg_stock
  | .failure _ => .sec default_section

/-- The `/stocks/seeds` handler (app.py lines 239-245). -/
def seedsStockGet (res : ScrapeResult) : Body :=
  match res with
  | .snapshot s => .sec s.seeds_stock
  | .failure _ => .sec default_section

/-! Helpers for stating properties, and concrete fixtures. -/

/-- Quantity recorded for a name in an aggregated item list (0 when the
name is absent). -/
def lookupQty : List LineItem → String → Nat
  | [], _ => 0
  | it :: rest, n => if it.name = n then it.quantity else lookupQty rest n

/-- The `(name, quantity)` pairs that the item loop actually parses, in
entry order. -/
def parsedPairs (entries : List ItemEntry) : List (String × Nat) :=
  entries.filterMap parseItem

/-- Total quantity carried by a given name in a pair list. -/
def qtySum (n : String) : List (String × Nat) → Nat
  | [] => 0
  | p :: ps => (if p.1 = n then p.2 else 0) + qtySum n ps

/-- Whether the section loop body writes the `gear_stock` entry for this
section: needs an `<h2>`, an item list, and a title containing `GEAR`. -/
def affectsGear (sec : SectionDiv) : Bool :=
  match sec.h2, sec.itemsUl with
  | some t, some _ => strContains (pyUpper (pyStrip t)) "GEAR"
  | _, _ => false

/-- Whether the section loop body writes the `egg_stock` entry: title
contains `EGG` and not `GEAR` (the `GEAR` branch is tested first). -/
def affectsEgg (sec : SectionDiv) : Bool :=
  match sec.h2, sec.itemsUl with
  | some t, some _ =>
    !strContains (pyUpper (pyStrip t)) "GEAR" && strContains (pyUpper (pyStrip t)) "EGG"
  | _, _ => false

/-- Whether the section loop body writes the `seeds_stock` entry: title
contains `SEEDS` and neither `GEAR` nor `EGG`. -/
def affectsSeeds (sec : SectionDiv) : Bool :=
  match sec.h2, sec.itemsUl with
  | some t, some _ =>
    !strContains (pyUpper (pyStrip t)) "GEAR" && !strContains (pyUpper (pyStrip t)) "EGG"
      && strContains (pyUpper (pyStrip t)) "SEEDS"
  | _, _ => false

/-- The section record the loop computes for a section it classifies. -/
def sectionValue (sec : SectionDiv) (entries : List ItemEntry) : StockSection :=
  { items := sectionItems entries, updates_in := sectionCountdown sec }

/-- Modelled from the spec: the heading pattern exactly as the claim words
it, `GEAR|EGG|SEEDS` case-insensitive — to be compared with the code's
`headingMatches`, which requires the longer literals
`GEAR STOCK|EGG STOCK|SEEDS STOCK` (app.py line 98). -/
def claimHeadingGES (t : String) : Bool :=
  strContains (pyUpper t) "GEAR" ||
  strContains (pyUpper t) "EGG" ||
  strContains (pyUpper t) "SEEDS"

/-- A `Watering Can` list entry with the given quantity-span text. -/
def wateringCanEntry (q : String) : ItemEntry :=
  { nameSpan := some { firstContent := some "Watering Can", quantitySpan := some q } }

/-- A `Shovel x1` list entry. -/
def shovelEntry : ItemEntry :=
  { nameSpan := some { firstContent := some "Shovel", quantitySpan := some "x1" } }

/-- A `Common Egg x4` list entry. -/
def commonEggEntry : ItemEntry :=
  { nameSpan := some { firstContent := some "Common Egg", quantitySpan := some "x4" } }

/-- A `Trowel x2` list entry. -/
def trowelEntry : ItemEntry :=
  { nameSpan := some { firstContent := some "Trowel", quantitySpan := some "x2" } }

/-- A GEAR section containing only the shovel, with a countdown. -/
def gearSec : SectionDiv :=
  { h2 := some "GEAR STOCK"
    countdownP := some { countdownSpan := some " 02:11 " }
    itemsUl := some [shovelEntry] }

/-- A second GEAR section containing only the trowel, without countdown. -/
def gearSec2 : SectionDiv :=
  { h2 := some "Gear Stock"
    countdownP := none
    itemsUl := some [trowelEntry] }

/-- An EGG section containing only the common egg. -/
def eggSec : SectionDiv :=
  { h2 := some "EGG STOCK", countdownP := none, itemsUl := some [commonEggEntry] }

/-- A `Duck Egg x3` list entry. -/
def duckEggEntry : ItemEntry :=
  { nameSpan := some { firstContent := some "Duck Egg", quantitySpan := some "x3" } }

/-- A second EGG section containing only the duck egg. -/
def eggSec2 : SectionDiv :=
  { h2 := some "Egg Stock", countdownP := none, itemsUl := some [duckEggEntry] }

/-- A `Carrot x6` list entry. -/
def carrotEntry : ItemEntry :=
  { nameSpan := some { firstContent := some "Carrot", quantitySpan := some "x6" } }

/-- A `Strawberry x7` list entry. -/
def strawberryEntry : ItemEntry :=
  { nameSpan := some { firstContent := some "Strawberry", quantitySpan := some "x7" } }

/-- A SEEDS section containing only the carrot. -/
def seedsSecA : SectionDiv :=
  { h2 := some "SEEDS STOCK", countdownP := none, itemsUl := some [carrotEntry] }

/-- A second SEEDS section containing only the strawberry. -/
def seedsSecB : SectionDiv :=
  { h2 := some "Seeds Stock", countdownP := none, itemsUl := some [strawberryEntry] }

/-- The end-to-end fixture page: a class-matched grid with one GEAR and
one EGG section, no SEEDS section. -/
def fixturePage : Page :=
  { gridByClass := some { sections := [gearSec, eggSec] }, fallbackDivs := [] }

/-- A page with no class-matched grid whose only fallback `<div>` has the
bare heading `GEAR`. -/
def gearOnlyPage : Page :=
  { gridByClass := none
    fallbackDivs := [{ h2Texts := ["GEAR"], asGrid := { sections := [gearSec] } }] }

/-- A page with no grid at all: no class match, and the single fallback
`<div>` heading matches nothing. -/
def noGridPage : Page :=
  { gridByClass := none
    fallbackDivs := [{ h2Texts := ["News"], asGrid := { sections := [] } }] }

/-- A 403 response whose body carries the challenge marker. -/
def chall403 : Response :=
  { status := 403, contentType := "text/html"
    body := "Checking Your Browser...", page := fixturePage }

/-- A 200 HTML response whose body carries the challenge marker. -/
def chall200 : Response :=
  { status := 200, contentType := "text/html; charset=utf-8"
    body := "<p>Checking Your Browser...</p>", page := fixturePage }

/-- A 200 response with a JSON content type. -/
def jsonResp : Response :=
  { status := 200, contentType := "application/json", body := "", page := fixturePage }

/-- A 200 HTML response carrying the fixture page. -/
def okResp : Response :=
  { status := 200, contentType := "text/html; charset=utf-8"
    body := "<html>", page := fixturePage }

/-- An oracle whose every attempt raises. -/
def failingAttempts : Nat → AttemptOutcome :=
  fun i => .exn ("boom " ++ toString i)

/-- The snapshot the fixture page parses to. -/
def fixtureSnapshot : StockSnapshot :=
  { gear_stock := { items := [{ name := "Shovel", quantity := 1 }], updates_in := "02:11" }
    egg_stock := { items := [{ name := "Common Egg", quantity := 4 }], updates_in := "Unknown" }
    seeds_stock := default_section }

/-! Lemmas about the item-aggregation map. -/

/-- The key list of `item_dict` after a merge: unchanged when the name is
already present, extended at the end otherwise. -/
theorem addItem_map_name (l : List LineItem) (m : String) (q : Nat) :
    (addItem l m q).map LineItem.name =
      if m ∈ l.map LineItem.name then l.map LineItem.name
      else l.map LineItem.name ++ [m] := by
  induction l with
  | nil => simp [addItem]
  | cons it rest ih =>
    by_cases h : it.name = m
    · simp [addItem, h]
    · by_cases hm : m ∈ rest.map LineItem.name
      · simp [addItem, h, ih, hm, Ne.symm h]
      · simp [addItem, h, ih, hm, Ne.symm h]

/-- Merging preserves distinctness of names. -/
theorem addItem_nodup {l : List LineItem} (m : String) (q : Nat)
    (h : (l.map LineItem.name).Nodup) :
    ((addItem l m q).map LineItem.name).Nodup := by
  rw [addItem_map_name]
  split
  · exact h
  · next hm =>
    simpa [List.nodup_append] using
      ⟨h, fun x hx hxm => hm (List.mem_map.mpr ⟨x, hx, hxm⟩)⟩

/-- Quantity bookkeeping of one merge. -/
theorem lookupQty_addItem (l : List LineItem) (m : String) (q : Nat) (n : String) :
    lookupQty (addItem l m q) n = lookupQty l n + (if m = n then q else 0) := by
  induction l with
  | nil =>
    by_cases hmn : m = n <;> simp [addItem, lookupQty, hmn]
  | cons it rest ih =>
    by_cases h : it.name = m
    · by_cases hn : it.name = n
      · have hmn : m = n := h.symm.trans hn
        simp [addItem, h, lookupQty, hn, hmn]
      · have hmn : ¬m = n := fun e => hn (h.trans e)
        simp [addItem, h, lookupQty, hn, hmn]
    · by_cases hn : it.name = n
      · have hnm : ¬n = m := fun e => h (hn.trans e)
        have hmn : ¬m = n := fun e => hnm e.symm
        simp [addItem, h, lookupQty, hn, hnm, hmn]
      · simp [addItem, h, lookupQty, hn, ih]

/-- Folding entries keeps names distinct. -/
theorem foldl_itemStep_nodup (es : List ItemEntry) :
    ∀ acc : List LineItem, (acc.map LineItem.name).Nodup →
      ((es.foldl itemStep acc).map LineItem.name).Nodup := by
  induction es with
  | nil => intro acc h; simpa using h
  | cons e es ih =>
    intro acc h
    rw [List.foldl_cons]
    apply ih
    cases hp : parseItem e with
    | none => simpa [itemStep, hp] using h
    | some p =>
      obtain ⟨n, q⟩ := p
      simpa [itemStep, hp] using addItem_nodup n q h

/-- Folding entries accumulates, per name, the sum of the parsed
quantities. -/
theorem lookupQty_foldl (es : List ItemEntry) :
    ∀ (acc : List LineItem) (n : String),
      lookupQty (es.foldl itemStep acc) n =
        lookupQty acc n + qtySum n (es.filterMap parseItem) := by
  induction es with
  | nil => intro acc n; simp [qtySum]
  | cons e es ih =>
    intro acc n
    rw [List.foldl_cons]
    cases hp : parseItem e with
    | none => simp [itemStep, hp, List.filterMap_cons, ih, qtySum]
    | some p =>
      obtain ⟨m, q⟩ := p
      rw [List.filterMap_cons]
      simp only [hp, itemStep]
      rw [ih, lookupQty_addItem]
      by_cases hmn : m = n
      · simp [qtySum, hmn]
        try omega
      · simp [qtySum, hmn]
        try omega

/-- C1: within one parsed section no two line items share a name; duplicate
entries are merged with quantities summed, so each name ends up with the
total quantity of all entries carrying it, and two `Watering Can` entries
of quantities 2 and 3 yield the single item of quantity 5. -/
theorem C1_duplicates_merge :
    (∀ entries : List ItemEntry, ((sectionItems entries).map LineItem.name).Nodup) ∧
    (∀ (entries : List ItemEntry) (n : String),
        lookupQty (sectionItems entries) n = qtySum n (parsedPairs entries)) ∧
    sectionItems [wateringCanEntry "x2", wateringCanEntry "x3"] =
      [{ name := "Watering Can", quantity := 5 }] := by
  refine ⟨fun entries => foldl_itemStep_nodup entries [] (by simp),
    fun entries n => ?_, by decide⟩
  simpa [sectionItems, parsedPairs, lookupQty] using lookupQty_foldl entries [] n

/-! Cache lemmas and claim C2. -/

/-- Looking up the key just written returns the written snapshot. -/
theorem cacheLookup_cacheInsert (c : CacheState) (k : String) (v : StockSnapshot) :
    cacheLookup (cacheInsert c k v) k = some v := by
  induction c with
  | nil => simp [cacheInsert, cacheLookup]
  | cons p rest ih =>
    obtain ⟨k', v'⟩ := p
    by_cases h : k' = k
    · simp [cacheInsert, h, cacheLookup]
    · simp [cacheInsert, h, cacheLookup, ih]

/-- C2 counterexample: the claim asserts that bucket keys computed from any
timestamps `t` and `t + 299` are equal, but the keys for seconds 1 and 300
already differ (`stock_data_0` versus `stock_data_1`). -/
theorem C2_counterexample : cacheKey 1 ≠ cacheKey 300 := by decide

/-- C2 (amended): a second aggregator call whose timestamp falls in the
same 300-second bucket as a first call that produced a snapshot performs
no fetch and returns that snapshot from the cache; buckets of `t` and
`t + 300` always differ; and buckets of `t` and `t + 299` agree when `t`
is a multiple of 300 (not for arbitrary `t`). -/
theorem C2_cache_hit_same_bucket (t1 t2 : Nat) (cache : CacheState)
    (a1 a2 : Nat → AttemptOutcome) (s : StockSnapshot)
    (hb : bucket t1 = bucket t2)
    (h1 : (scrape_stock_data t1 cache a1).1 = .snapshot s) :
    scrape_stock_data t2 (scrape_stock_data t1 cache a1).2.1 a2 =
      (.snapshot s, (scrape_stock_data t1 cache a1).2.1, 0) ∧
    (∀ t : Nat, bucket t ≠ bucket (t + 300)) ∧
    (∀ t : Nat, 300 ∣ t → cacheKey t = cacheKey (t + 299)) := by
  refine ⟨?_, ?_, ?_⟩
  · have hk : cacheKey t2 = cacheKey t1 := by unfold cacheKey; rw [hb]
    unfold scrape_stock_data at h1 ⊢
    cases hc : cacheLookup cache (cacheKey t1) with
    | some snap =>
      simp only [hc] at h1 ⊢
      obtain rfl : snap = s := by injection h1
      simp [hk, hc]
    | none =>
      simp only [hc] at h1 ⊢
      cases hr : (scrapeAttempts a1).1 with
      | snapshot s' =>
        simp only [hr] at h1 ⊢
        obtain rfl : s' = s := by injection h1
        simp [hk, cacheLookup_cacheInsert]
      | failure e => simp [hr] at h1
  · intro t
    unfold bucket
    omega
  · intro t ht
    obtain ⟨k, rfl⟩ := ht
    unfold cacheKey
    have : bucket (300 * k) = bucket (300 * k + 299) := by unfold bucket; omega
    rw [this]

/-- Witness for C2: concrete run at seconds 10 and 200 (same bucket 0) with
an empty cache and a succeeding first fetch; the second call is
cache-served with zero fetches. -/
theorem C2_cache_hit_same_bucket_witness :
    bucket 10 = bucket 200 ∧
    (scrape_stock_data 10 [] (fun _ => .resp okResp)).1 = .snapshot fixtureSnapshot ∧
    scrape_stock_data 200 (scrape_stock_data 10 [] (fun _ => .resp okResp)).2.1
        (fun _ => .exn "network down") =
      (.snapshot fixtureSnapshot,
        (scrape_stock_data 10 [] (fun _ => .resp okResp)).2.1, 0) :=
  ⟨by decide, by decide,
    (C2_cache_hit_same_bucket 10 200 [] (fun _ => .resp okResp)
      (fun _ => .exn "network down") fixtureSnapshot (by decide) (by decide)).1⟩

/-! Claim C3: endpoint bodies on FetchError outcomes. -/

/-- C3 counterexample: on a concrete FetchError (`StructureNotFound`) the
`/stocks/gear` handler returns the default empty section — a section body
in place of the error — because `data.get('gear_stock', default)` on an
error dict yields the default; the structured error shape is not
returned. -/
theorem C3_counterexample :
    gearStockGet (.failure structureNotFoundError) = .sec default_section ∧
    Body.sec default_section ≠ Body.err structureNotFoundError := by
  exact ⟨rfl, by decide⟩

/-- C3 (amended): on any FetchError outcome, `/stocks/all` returns the
structured error object, while each per-category endpoint
(`/stocks/gear`, `/stocks/egg`, `/stocks/seeds`) instead returns the
default empty section `{items: [], updates_in: "Unknown"}`, never the
error shape. -/
theorem C3_error_bodies (e : ErrorBody) :
    allStocksGet (.failure e) = .err e ∧
    gearStockGet (.failure e) = .sec default_section ∧
    eggStockGet (.failure e) = .sec default_section ∧
    seedsStockGet (.failure e) = .sec default_section :=
  ⟨rfl, rfl, rfl, rfl⟩

/-! Claim C4: bot-challenge detection. -/

/-- C4 counterexample: a 403 response whose body contains
`"checking your browser"` (case-insensitively) never yields
`BotChallenge`: `raise_for_status()` throws before the marker check, every
attempt fails, and the result is `TransportFailure` — so the detection is
not independent of the HTTP status code. -/
theorem C4_counterexample :
    strContains (pyLower chall403.body) "checking your browser" = true ∧
    scrapeAttempts (fun _ => .resp chall403) =
      (.failure (transportFailureError "403 Error"), 3) ∧
    transportFailureError "403 Error" ≠ botChallengeError := by
  refine ⟨by decide, by decide, by decide⟩

/-- C4 (amended): for a response that passes `raise_for_status` (status
below 400) and whose `Content-Type` contains `text/html`, a body containing
`'cf-browser-verification'` (case-sensitive) or containing
`'checking your browser'` case-insensitively makes the attempt return
`BotChallenge`. -/
theorem C4_challenge_detected (r : Response)
    (hs : r.status < 400)
    (hct : strContains (pyLower r.contentType) "text/html" = true)
    (hb : strContains r.body "cf-browser-verification" = true ∨
          strContains (pyLower r.body) "checking your browser" = true) :
    attemptStep (.resp r) = .ok (.failure botChallengeError) := by
  have hrs : raiseForStatus r = none := by
    unfold raiseForStatus
    rw [if_neg (by omega)]
  simp only [attemptStep, hrs]
  unfold tryAttempt
  rcases hb with hb | hb <;> simp [hct, hb]

/-- Witness for C4: the 200-status HTML response with the challenge marker
is detected as `BotChallenge`. -/
theorem C4_challenge_detected_witness :
    chall200.status < 400 ∧
    strContains (pyLower chall200.contentType) "text/html" = true ∧
    strContains (pyLower chall200.body) "checking your browser" = true ∧
    attemptStep (.resp chall200) = .ok (.failure botChallengeError) :=
  ⟨by decide, by decide, by decide,
    C4_challenge_detected chall200 (by decide) (by decide) (Or.inr (by decide))⟩

/-! Claim C5: errors are never cached. -/

/-- C5: whenever `scrape_stock_data` returns a FetchError outcome, the
cache afterwards is exactly the cache before — the write at app.py line
195 sits on the success path only, so a later call in the same bucket
re-attempts the fetch. -/
theorem C5_errors_not_cached (now : Nat) (cache : CacheState)
    (attempts : Nat → AttemptOutcome) (e : ErrorBody)
    (h : (scrape_stock_data now cache attempts).1 = .failure e) :
    (scrape_stock_data now cache attempts).2.1 = cache := by
  unfold scrape_stock_data at h ⊢
  cases hc : cacheLookup cache (cacheKey now) with
  | some snap => simp [hc] at h
  | none =>
    simp only [hc] at h ⊢
    cases hr : (scrapeAttempts attempts).1 with
    | snapshot s => simp [hr] at h
    | failure e' => simp [hr]

/-- Witness for C5: an all-exceptions run returns `TransportFailure` and
leaves the empty cache empty. -/
theorem C5_errors_not_cached_witness :
    (scrape_stock_data 0 [] failingAttempts).1 =
      .failure (transportFailureError "boom 2") ∧
    (scrape_stock_data 0 [] failingAttempts).2.1 = [] :=
  ⟨by decide,
    C5_errors_not_cached 0 [] failingAttempts (transportFailureError "boom 2")
      (by decide)⟩

/-! Claim C6: the retry budget and the final TransportFailure. -/

/-- A needle placed at the start is found. -/
theorem matchHere_append (l r : List Char) : matchHere l (l ++ r) = true := by
  induction l with
  | nil => simp [matchHere]
  | cons c cs ih => simp [matchHere, ih]

/-- A needle with a successful match is found by the search. -/
theorem subSearch_of_matchHere (n h : List Char) (hm : matchHere n h = true) :
    subSearch n h = true := by
  cases h with
  | nil => simpa [subSearch] using hm
  | cons d ds => simp [subSearch, hm]

/-- Appending characters on the right preserves the character list. -/
theorem toList_append (s t : String) : (s ++ t).toList = s.toList ++ t.toList :=
  rfl

/-- Python `s in (s + t)` holds. -/
theorem strContains_append_left (s t : String) : strContains (s ++ t) s = true := by
  unfold strContains
  rw [toList_append]
  exact subSearch_of_matchHere _ _ (matchHere_append _ _)

/-- C6: the loop performs at most 3 fetch attempts, and when the attempt
steps of all three iterations raise, the result is `TransportFailure`
built from the message of the last (third) exception, whose text is
carried inside the error's `details`. -/
theorem C6_retry_budget (attempts : Nat → AttemptOutcome) :
    (scrapeAttempts attempts).2 ≤ 3 ∧
    (∀ m0 m1 m2 : String,
      attemptStep (attempts 0) = .error m0 →
      attemptStep (attempts 1) = .error m1 →
      attemptStep (attempts 2) = .error m2 →
      scrapeAttempts attempts = (.failure (transportFailureError m2), 3) ∧
      strContains (transportFailureError m2).details m2 = true) := by
  constructor
  · unfold scrapeAttempts
    cases h0 : attemptStep (attempts 0) with
    | ok res => simp [runFrom, h0]
    | error m =>
      cases h1 : attemptStep (attempts 1) with
      | ok res => simp [runFrom, h0, h1]
      | error m' =>
        cases h2 : attemptStep (attempts 2) with
        | ok res => simp [runFrom, h0, h1, h2]
        | error m'' => simp [runFrom, h0, h1, h2]
  · intro m0 m1 m2 h0 h1 h2
    refine ⟨?_, strContains_append_left m2 _⟩
    simp [scrapeAttempts, runFrom, h0, h1, h2]

/-- Witness for C6: the all-exceptions oracle uses its full budget and
reports the third exception's message. -/
theorem C6_retry_budget_witness :
    attemptStep (failingAttempts 0) = .error "boom 0" ∧
    attemptStep (failingAttempts 1) = .error "boom 1" ∧
    attemptStep (failingAttempts 2) = .error "boom 2" ∧
    scrapeAttempts failingAttempts = (.failure (transportFailureError "boom 2"), 3) ∧
    strContains (transportFailureError "boom 2").details "boom 2" = true :=
  ⟨rfl, rfl, rfl,
    ((C6_retry_budget failingAttempts).2 "boom 0" "boom 1" "boom 2" rfl rfl rfl).1,
    ((C6_retry_budget failingAttempts).2 "boom 0" "boom 1" "boom 2" rfl rfl rfl).2⟩

/-! Claim C7: what triggers a retry. -/

/-- C7 counterexample: a first-attempt response with
`Content-Type: application/json` — a validation failure on a non-final
attempt — makes the loop return the `InvalidContentType` error immediately
after a single fetch, instead of proceeding to the next attempt. -/
theorem C7_counterexample :
    scrapeAttempts (fun _ => .resp jsonResp) =
      (.failure (invalidContentTypeError "application/json"), 1) ∧
    (1 : Nat) ≠ 3 := by
  exact ⟨by decide, by decide⟩

/-- C7 (amended): only exceptions raised during the request (including
non-2xx statuses via `raise_for_status`) trigger a retry; any response
that passes `raise_for_status` ends the loop on that very attempt with the
outcome of its validation/parsing — validation failures such as a non-HTML
`Content-Type` or a detected bot challenge are returned immediately, after
exactly one fetch.  An exception on the first attempt, by contrast, makes
the loop continue into the remaining two attempts. -/
theorem C7_no_retry_on_validation (attempts : Nat → AttemptOutcome) :
    (∀ r : Response, attempts 0 = .resp r → raiseForStatus r = none →
        scrapeAttempts attempts = (tryAttempt r, 1)) ∧
    (∀ m : String, attemptStep (attempts 0) = .error m →
        scrapeAttempts attempts =
          ((runFrom attempts 1 2).1, (runFrom attempts 1 2).2 + 1)) := by
  constructor
  · intro r h0 hrs
    have hstep : attemptStep (attempts 0) = .ok (tryAttempt r) := by
      simp [attemptStep, h0, hrs]
    simp [scrapeAttempts, runFrom, hstep]
  · intro m h0
    simp [scrapeAttempts, runFrom, h0]

/-- Witness for C7: the JSON-content-type oracle ends after one fetch with
the `InvalidContentType` outcome of its first response. -/
theorem C7_no_retry_on_validation_witness :
    (fun _ : Nat => AttemptOutcome.resp jsonResp) 0 = .resp jsonResp ∧
    raiseForStatus jsonResp = none ∧
    scrapeAttempts (fun _ => .resp jsonResp) = (tryAttempt jsonResp, 1) :=
  ⟨rfl, rfl,
    (C7_no_retry_on_validation (fun _ => .resp jsonResp)).1 jsonResp rfl rfl⟩

/-! Claim C8: grid detection and the heading fallback. -/

/-- C8 counterexample: the bare heading `GEAR` matches the claim's pattern
`GEAR|EGG|SEEDS`, yet a page whose only fallback `<div>` carries that
heading fails with `StructureNotFound`, because the code's fallback regex
requires `GEAR STOCK|EGG STOCK|SEEDS STOCK`. -/
theorem C8_counterexample :
    claimHeadingGES "GEAR" = true ∧
    parsePage gearOnlyPage = .failure structureNotFoundError := by
  exact ⟨by decide, by decide⟩

/-- C8 (amended): when no element matches the grid class pattern and no
container holds a heading matching `GEAR STOCK|EGG STOCK|SEEDS STOCK`
(case-insensitive), parsing fails with `StructureNotFound`; when some
container's heading does match that pattern, the fallback selects the
first such container as the grid and parsing proceeds on it. -/
theorem C8_fallback_detection (p : Page) (hclass : p.gridByClass = none) :
    ((∀ d ∈ p.fallbackDivs, d.h2Texts.any headingMatches = false) →
        parsePage p = .failure structureNotFoundError) ∧
    (∀ d ∈ p.fallbackDivs, d.h2Texts.any headingMatches = true →
        ∃ d', p.fallbackDivs.find? (fun x => x.h2Texts.any headingMatches) = some d' ∧
          findGrid p = some d'.asGrid) := by
  constructor
  · intro hnone
    have hfind : p.fallbackDivs.find? (fun x => x.h2Texts.any headingMatches) = none := by
      rw [List.find?_eq_none]
      intro d hd
      simp [hnone d hd]
    simp [parsePage, findGrid, hclass, hfind]
  · intro d hd hmatch
    have hsome : (p.fallbackDivs.find? (fun x => x.h2Texts.any headingMatches)).isSome := by
      rw [List.find?_isSome]
      exact ⟨d, hd, hmatch⟩
    obtain ⟨d', hd'⟩ := Option.isSome_iff_exists.mp hsome
    exact ⟨d', hd', by simp [findGrid, hclass, hd']⟩

/-- Witness for C8: the page with a single non-matching heading fails with
`StructureNotFound`. -/
theorem C8_fallback_detection_witness :
    noGridPage.gridByClass = none ∧
    parsePage noGridPage = .failure structureNotFoundError :=
  ⟨rfl, (C8_fallback_detection noGridPage rfl).1 (by decide)⟩

/-! Claims C9 and C10: the section fold. -/

/-- A section that does not classify to gear leaves `gear_stock`
untouched. -/
theorem processSection_gear_of_not_affects (d : StockSnapshot) (sec : SectionDiv)
    (h : affectsGear sec = false) :
    (processSection d sec).gear_stock = d.gear_stock := by
  unfold processSection affectsGear at *
  cases hh : sec.h2 with
  | none => rfl
  | some t =>
    cases hu : sec.itemsUl with
    | none => simp [hh, hu]
    | some entries =>
      rw [hh, hu] at h
      simp only [hh, hu]
      split_ifs with hg he hs2 <;> simp_all

/-- A section that does not classify to egg leaves `egg_stock`
untouched. -/
theorem processSection_egg_of_not_affects (d : StockSnapshot) (sec : SectionDiv)
    (h : affectsEgg sec = false) :
    (processSection d sec).egg_stock = d.egg_stock := by
  unfold processSection affectsEgg at *
  cases hh : sec.h2 with
  | none => rfl
  | some t =>
    cases hu : sec.itemsUl with
    | none => simp [hh, hu]
    | some entries =>
      rw [hh, hu] at h
      simp only [hh, hu]
      split_ifs with hg he hs2 <;> simp_all

/-- A section that does not classify to seeds leaves `seeds_stock`
untouched. -/
theorem processSection_seeds_of_not_affects (d : StockSnapshot) (sec : SectionDiv)
    (h : affectsSeeds sec = false) :
    (processSection d sec).seeds_stock = d.seeds_stock := by
  unfold processSection affectsSeeds at *
  cases hh : sec.h2 with
  | none => rfl
  | some t =>
    cases hu : sec.itemsUl with
    | none => simp [hh, hu]
    | some entries =>
      rw [hh, hu] at h
      simp only [hh, hu]
      split_ifs with hg he hs2 <;> simp_all

/-- Folding sections none of which classifies to a category leaves that
category of the accumulator unchanged. -/
theorem foldl_processSection_default (secs : List SectionDiv) :
    ∀ d : StockSnapshot,
      ((∀ sec ∈ secs, affectsGear sec = false) →
        (secs.foldl processSection d).gear_stock = d.gear_stock) ∧
      ((∀ sec ∈ secs, affectsEgg sec = false) →
        (secs.foldl processSection d).egg_stock = d.egg_stock) ∧
      ((∀ sec ∈ secs, affectsSeeds sec = false) →
        (secs.foldl processSection d).seeds_stock = d.seeds_stock) := by
  induction secs with
  | nil => intro d; simp
  | cons sec secs ih =>
    intro d
    refine ⟨fun h => ?_, fun h => ?_, fun h => ?_⟩
    · rw [List.foldl_cons, (ih (processSection d sec)).1 (fun s hs => h s (by simp [hs]))]
      exact processSection_gear_of_not_affects d sec (h sec (by simp))
    · rw [List.foldl_cons, (ih (processSection d sec)).2.1 (fun s hs => h s (by simp [hs]))]
      exact processSection_egg_of_not_affects d sec (h sec (by simp))
    · rw [List.foldl_cons, (ih (processSection d sec)).2.2 (fun s hs => h s (by simp [hs]))]
      exact processSection_seeds_of_not_affects d sec (h sec (by simp))

/-- C9: a successfully parsed snapshot consists of exactly the three
sections `gear_stock`, `egg_stock`, `seeds_stock` (the `StockSnapshot`
record), and any category no section of the grid classifies to keeps the
default `{items: [], updates_in: "Unknown"}`; the fixture with one GEAR
and one EGG section and no SEEDS section parses to a snapshot whose
`seeds_stock` is the default while the other two are populated. -/
theorem C9_missing_category_defaults :
    (∀ (p : Page) (g : Grid) (s : StockSnapshot),
        findGrid p = some g → parsePage p = .snapshot s →
        ((∀ sec ∈ g.sections, affectsGear sec = false) →
            s.gear_stock = default_section) ∧
        ((∀ sec ∈ g.sections, affectsEgg sec = false) →
            s.egg_stock = default_section) ∧
        ((∀ sec ∈ g.sections, affectsSeeds sec = false) →
            s.seeds_stock = default_section)) ∧
    parsePage fixturePage = .snapshot fixtureSnapshot := by
  constructor
  · intro p g s hg hs
    simp only [parsePage, hg] at hs
    split at hs
    · exact absurd hs (by simp)
    · split at hs
      · exact absurd hs (by simp)
      · have hfold : g.sections.foldl processSection initial_stock_data = s := by
          injection hs
        refine ⟨fun h => ?_, fun h => ?_, fun h => ?_⟩
        · rw [← hfold, (foldl_processSection_default g.sections initial_stock_data).1 h]
          rfl
        · rw [← hfold, (foldl_processSection_default g.sections initial_stock_data).2.1 h]
          rfl
        · rw [← hfold, (foldl_processSection_default g.sections initial_stock_data).2.2 h]
          rfl
  · decide

/-- Witness for C9: applied to the fixture page, whose grid has no section
classifying to seeds, the parsed snapshot's `seeds_stock` is the default
section. -/
theorem C9_missing_category_defaults_witness :
    findGrid fixturePage = some { sections := [gearSec, eggSec] } ∧
    parsePage fixturePage = .snapshot fixtureSnapshot ∧
    fixtureSnapshot.seeds_stock = default_section :=
  ⟨rfl, by decide,
    ((C9_missing_category_defaults.1 fixturePage { sections := [gearSec, eggSec] }
      fixtureSnapshot rfl (by decide)).2.2) (by decide)⟩

/-- A section with a gear-classifying title and an item list overwrites
`gear_stock` with the value computed from this very section, whatever the
accumulator held. -/
theorem processSection_gear_set (d : StockSnapshot) (sec : SectionDiv)
    (t : String) (entries : List ItemEntry)
    (ht : sec.h2 = some t)
    (hg : strContains (pyUpper (pyStrip t)) "GEAR" = true)
    (hu : sec.itemsUl = some entries) :
    (processSection d sec).gear_stock = sectionValue sec entries := by
  unfold processSection sectionValue
  simp [ht, hu, hg]

/-- A section with an egg-classifying title (contains `EGG`, not `GEAR`,
matching the elif order) and an item list overwrites `egg_stock` with the
value computed from this very section. -/
theorem processSection_egg_set (d : StockSnapshot) (sec : SectionDiv)
    (t : String) (entries : List ItemEntry)
    (ht : sec.h2 = some t)
    (hng : strContains (pyUpper (pyStrip t)) "GEAR" = false)
    (he : strContains (pyUpper (pyStrip t)) "EGG" = true)
    (hu : sec.itemsUl = some entries) :
    (processSection d sec).egg_stock = sectionValue sec entries := by
  unfold processSection sectionValue
  simp [ht, hu, hng, he]

/-- A section with a seeds-classifying title (contains `SEEDS`, neither
`GEAR` nor `EGG`) and an item list overwrites `seeds_stock` with the value
computed from this very section. -/
theorem processSection_seeds_set (d : StockSnapshot) (sec : SectionDiv)
    (t : String) (entries : List ItemEntry)
    (ht : sec.h2 = some t)
    (hng : strContains (pyUpper (pyStrip t)) "GEAR" = false)
    (hne : strContains (pyUpper (pyStrip t)) "EGG" = false)
    (hs : strContains (pyUpper (pyStrip t)) "SEEDS" = true)
    (hu : sec.itemsUl = some entries) :
    (processSection d sec).seeds_stock = sectionValue sec entries := by
  unfold processSection sectionValue
  simp [ht, hu, hng, hne, hs]

/-- C10: when several grid sections classify to the same category, that
category's section in the result equals the items and countdown computed
from the last such section in document order, for each of the three
categories and for arbitrary grids: earlier sections of the grid (`pre`,
which may contain same-category sections — their items are discarded
wholesale, never merged) and later sections of other categories (`suf`)
leave the value of the last same-category section untouched.  Concretely,
in the grid [GEAR, GEAR2, EGG] the gear section is the one computed from
GEAR2 alone (the Shovel of the first GEAR section is gone), and likewise
for duplicated EGG and SEEDS sections followed by other categories. -/
theorem C10_last_section_wins :
    (∀ (d : StockSnapshot) (pre suf : List SectionDiv) (sec : SectionDiv)
        (t : String) (entries : List ItemEntry),
        sec.h2 = some t →
        sec.itemsUl = some entries →
        strContains (pyUpper (pyStrip t)) "GEAR" = true →
        (∀ s ∈ suf, affectsGear s = false) →
        ((pre ++ sec :: suf).foldl processSection d).gear_stock =
          sectionValue sec entries) ∧
    (∀ (d : StockSnapshot) (pre suf : List SectionDiv) (sec : SectionDiv)
        (t : String) (entries : List ItemEntry),
        sec.h2 = some t →
        sec.itemsUl = some entries →
        strContains (pyUpper (pyStrip t)) "GEAR" = false →
        strContains (pyUpper (pyStrip t)) "EGG" = true →
        (∀ s ∈ suf, affectsEgg s = false) →
        ((pre ++ sec :: suf).foldl processSection d).egg_stock =
          sectionValue sec entries) ∧
    (∀ (d : StockSnapshot) (pre suf : List SectionDiv) (sec : SectionDiv)
        (t : String) (entries : List ItemEntry),
        sec.h2 = some t →
        sec.itemsUl = some entries →
        strContains (pyUpper (pyStrip t)) "GEAR" = false →
        strContains (pyUpper (pyStrip t)) "EGG" = false →
        strContains (pyUpper (pyStrip t)) "SEEDS" = true →
        (∀ s ∈ suf, affectsSeeds s = false) →
        ((pre ++ sec :: suf).foldl processSection d).seeds_stock =
          sectionValue sec entries) ∧
    ([gearSec, gearSec2, eggSec].foldl processSection initial_stock_data).gear_stock =
      { items := [{ name := "Trowel", quantity := 2 }], updates_in := "Unknown" } ∧
    ([eggSec, eggSec2, gearSec].foldl processSection initial_stock_data).egg_stock =
      { items := [{ name := "Duck Egg", quantity := 3 }], updates_in := "Unknown" } ∧
    ([seedsSecA, seedsSecB, gearSec].foldl processSection initial_stock_data).seeds_stock =
      { items := [{ name := "Strawberry", quantity := 7 }], updates_in := "Unknown" } := by
  refine ⟨?_, ?_, ?_, by decide, by decide, by decide⟩
  · intro d pre suf sec t entries ht hu hg hsuf
    rw [List.foldl_append, List.foldl_cons]
    rw [(foldl_processSection_default suf
      (processSection (pre.foldl processSection d) sec)).1 hsuf]
    exact processSection_gear_set _ sec t entries ht hg hu
  · intro d pre suf sec t entries ht hu hng he hsuf
    rw [List.foldl_append, List.foldl_cons]
    rw [(foldl_processSection_default suf
      (processSection (pre.foldl processSection d) sec)).2.1 hsuf]
    exact processSection_egg_set _ sec t entries ht hng he hu
  · intro d pre suf sec t entries ht hu hng hne hs hsuf
    rw [List.foldl_append, List.foldl_cons]
    rw [(foldl_processSection_default suf
      (processSection (pre.foldl processSection d) sec)).2.2 hsuf]
    exact processSection_seeds_set _ sec t entries ht hng hne hs hu

/-- Witness for C10: in the grid [GEAR, GEAR2, EGG], where the trailing
EGG section does not classify to gear, the gear section is the one of
GEAR2. -/
theorem C10_last_section_wins_witness :
    affectsGear eggSec = false ∧
    (([gearSec] ++ gearSec2 :: [eggSec]).foldl processSection
        initial_stock_data).gear_stock =
      sectionValue gearSec2 [trowelEntry] :=
  ⟨by decide,
    C10_last_section_wins.1 initial_stock_data [gearSec] [eggSec] gearSec2
      "Gear Stock" [trowelEntry] rfl rfl (by decide) (by decide)⟩

end Stocks
